import Mathlib

/-!
Verification of `sktime/classification/dummy/_dummy.py` (`DummyClassifier`),
a baseline classifier that ignores feature values and delegates to an
underlying baseline-statistics engine.

The glue code under `src/` is embedded directly; the underlying engine
(`sklearn.dummy.DummyClassifier`) and the `BaseClassifier` fitted-state check
are not part of the repository sources, so they are modelled from the spec.
-/

namespace DummySpec

/-- Labels are modelled as natural numbers. -/
abbrev Label := Nat

/-- A collection of sequence instances: an n-dimensional shape (first
dimension = instance count) together with the flattened feature content.
Mirrors a pandas/numpy container of shape `(n, d)` or `(n, d, m)`. -/
structure XColl where
  shape : List Nat
  content : List Int
deriving DecidableEq, Repr

/-- Number of query/training instances: the first dimension of the shape. -/
def XColl.nInstances (X : XColl) : Nat := X.shape.headD 0

/-- Modelled from the spec: `np.zeros(shape)`, the zero-filled feature
placeholder of a given shape, as used in `_fit`, `_predict`, `_predict_proba`. -/
def npZeros (shape : List Nat) : XColl :=
  { shape := shape, content := List.replicate (shape.foldl (· * ·) 1) 0 }

/-- Errors raised at fit time (spec section 7). -/
inductive FitError
  | InvalidStrategy
  | MissingConstant
  | ShapeMismatch
deriving DecidableEq, Repr

/-- Errors raised at predict time (spec section 7). -/
inductive PredictError
  | NotFitted
deriving DecidableEq, Repr

/-- The `VALID_STRATEGIES` list from the source. -/
def VALID_STRATEGIES : List String :=
  ["most_frequent", "prior", "stratified", "uniform", "constant"]

/-- The fitted label space: distinct labels observed in `y` at fit time. -/
def classesOf (y : List Label) : List Label := y.dedup

/-- The majority label: a label of the fitted label space with the highest
frequency in the training labels. -/
def majorityOf (y : List Label) : Label :=
  (List.argmax (fun c => y.count c) (classesOf y)).getD 0

/-- The empirical class-prior distribution over the fitted label space. -/
def priorOf (y : List Label) : List ℚ :=
  (classesOf y).map (fun c => (y.count c : ℚ) / (y.length : ℚ))

/-- A one-hot probability vector at label `c` over the given label space. -/
def oneHot (classes : List Label) (c : Label) : List ℚ :=
  classes.map (fun k => if k = c then 1 else 0)

/-- Modelled from the spec: the fitted summary computed by the underlying
baseline engine from the training labels (label space, per-class counts,
majority label, empirical prior, sample count). -/
structure FittedSummary where
  classes : List Label
  counts : List Nat
  majority : Label
  priorDist : List ℚ
  nSamples : Nat
deriving DecidableEq, Repr

/-- The fitted summary as a function of the training labels alone. -/
def summaryOf (y : List Label) : FittedSummary :=
  { classes := classesOf y
    counts := (classesOf y).map (fun c => y.count c)
    majority := majorityOf y
    priorDist := priorOf y
    nSamples := y.length }

/-- Modelled from the spec: a seedable pseudo-random generator (linear
congruential step), owned by the predictor instance via `random_state`. -/
def lcg (s : Nat) : Nat := (1103515245 * s + 12345) % 2147483648

/-- The generator output used for query row `i` under a given seed. -/
def rngAt (seed i : Nat) : Nat := lcg (lcg seed + i)

/-- Default seed when `random_state` is not supplied. -/
def seedOf (random_state : Option Nat) : Nat := random_state.getD 0

/-- Pick a class from `(class, count)` pairs by a weighted index:
sampling according to the empirical prior. -/
def pickWeighted : List (Label × Nat) → Nat → Label
  | [], _ => 0
  | (c, k) :: rest, r => if r < k then c else pickWeighted rest (r - k)

/-- Modelled from the spec: the underlying baseline-statistics engine
(`sklearn.dummy.DummyClassifier`), which is not part of the repository
sources. It holds the construction parameters and, after fitting, the
strategy-specific summary. -/
structure SklearnDummyClassifier where
  strategy : String
  random_state : Option Nat
  constant : Option Label
  fitted : Option FittedSummary
deriving DecidableEq, Repr

/-- Modelled from the spec: engine construction stores the parameters and
performs no validation. -/
def SklearnDummyClassifier.make (strategy : String) (random_state : Option Nat)
    (constant : Option Label) : SklearnDummyClassifier :=
  { strategy := strategy, random_state := random_state, constant := constant,
    fitted := none }

/-- Modelled from the spec: the engine's `fit(placeholder_features, labels)`.
Fails with `InvalidStrategy` if the strategy is unrecognized, with
`MissingConstant` if strategy is "constant" and no constant was supplied,
with `ShapeMismatch` if feature and label counts differ; otherwise computes
the strategy summary from the labels alone. -/
def SklearnDummyClassifier.fit (e : SklearnDummyClassifier) (X : XColl)
    (y : List Label) : Except FitError SklearnDummyClassifier :=
  if ¬ (VALID_STRATEGIES.contains e.strategy) then .error .InvalidStrategy
  else if e.strategy = "constant" ∧ e.constant = none then .error .MissingConstant
  else if X.nInstances ≠ y.length then .error .ShapeMismatch
  else .ok { e with fitted := some (summaryOf y) }

/-- Modelled from the spec: the label predicted by the engine for query row
`i`, given the fitted summary. Deterministic strategies ignore `i`; the
stochastic strategies sample via the seeded generator. -/
def predictOne (e : SklearnDummyClassifier) (s : FittedSummary) (i : Nat) : Label :=
  if e.strategy = "most_frequent" ∨ e.strategy = "prior" then s.majority
  else if e.strategy = "constant" then e.constant.getD 0
  else if e.strategy = "stratified" then
    pickWeighted (s.classes.zip s.counts) (rngAt (seedOf e.random_state) i % s.nSamples)
  else
    s.classes.getD (rngAt (seedOf e.random_state) i % s.classes.length) 0

/-- Modelled from the spec: the probability row produced by the engine for
query row `i`. "most_frequent": one-hot at the majority label; "prior": the
empirical prior; "constant": one-hot at the constant; "stratified"/"uniform":
one-hot at the sampled label of that row. -/
def probaOne (e : SklearnDummyClassifier) (s : FittedSummary) (i : Nat) : List ℚ :=
  if e.strategy = "most_frequent" then oneHot s.classes s.majority
  else if e.strategy = "prior" then s.priorDist
  else if e.strategy = "constant" then oneHot s.classes (e.constant.getD 0)
  else oneHot s.classes (predictOne e s i)

/-- Modelled from the spec: the engine's `predict(placeholder_features)`,
one label per query instance; fails with `NotFitted` before `fit`. -/
def SklearnDummyClassifier.predict (e : SklearnDummyClassifier) (X : XColl) :
    Except PredictError (List Label) :=
  match e.fitted with
  | none => .error .NotFitted
  | some s => .ok ((List.range X.nInstances).map (fun i => predictOne e s i))

/-- Modelled from the spec: the engine's `predict_proba(placeholder_features)`,
one probability row per query instance; fails with `NotFitted` before `fit`. -/
def SklearnDummyClassifier.predict_proba (e : SklearnDummyClassifier) (X : XColl) :
    Except PredictError (List (List ℚ)) :=
  match e.fitted with
  | none => .error .NotFitted
  | some s => .ok ((List.range X.nInstances).map (fun i => probaOne e s i))

/-- The state of `DummyClassifier`: the three stored construction parameters
and the delegate engine (source lines 93-100). -/
structure DummyClassifier where
  strategy : String
  random_state : Option Nat
  constant : Option Label
  sklearn_dummy_classifier : SklearnDummyClassifier
deriving DecidableEq, Repr

/-- Constructor (`__init__`): stores the parameters and builds the delegate
engine; no validation is performed. -/
def DummyClassifier.init (strategy : String) (random_state : Option Nat)
    (constant : Option Label) : DummyClassifier :=
  { strategy := strategy, random_state := random_state, constant := constant,
    sklearn_dummy_classifier :=
      SklearnDummyClassifier.make strategy random_state constant }

/-- The fit method: calls the engine's fit with the zero placeholder
`np.zeros(X.shape)` and the unmodified labels `y`, and returns self. -/
def DummyClassifier.fit (M : DummyClassifier) (X : XColl) (y : List Label) :
    Except FitError DummyClassifier :=
  (M.sklearn_dummy_classifier.fit (npZeros X.shape) y).map
    (fun e => { M with sklearn_dummy_classifier := e })

/-- The predict method: returns the engine's prediction on the zero
placeholder `np.zeros(X.shape)` unmodified. -/
def DummyClassifier.predict (M : DummyClassifier) (X : XColl) :
    Except PredictError (List Label) :=
  M.sklearn_dummy_classifier.predict (npZeros X.shape)

/-- The predict_proba method: returns the engine's probability
prediction on the zero placeholder `np.zeros(X.shape)` unmodified. -/
def DummyClassifier.predict_proba (M : DummyClassifier) (X : XColl) :
    Except PredictError (List (List ℚ)) :=
  M.sklearn_dummy_classifier.predict_proba (npZeros X.shape)

/-! ### Helper lemmas -/

/-- Mapping a constant function over `List.range m` yields `m` copies. -/
theorem map_range_const {α : Type} (m : Nat) (a : α) :
    (List.range m).map (fun _ => a) = List.replicate m a := by
  induction m with
  | zero => rfl
  | succ n ih => rw [List.range_succ, List.map_append, ih, List.map_singleton,
      List.replicate_succ' n a]

/-- A successful fit starting from a freshly constructed predictor yields the
same predictor with the engine holding the summary of the labels. -/
theorem fit_ok_state (strategy : String) (random_state : Option Nat)
    (constant : Option Label) (Xtr : XColl) (y : List Label)
    (M' : DummyClassifier)
    (hfit : (DummyClassifier.init strategy random_state constant).fit Xtr y
      = .ok M') :
    M' = { strategy := strategy, random_state := random_state,
           constant := constant,
           sklearn_dummy_classifier :=
             { strategy := strategy, random_state := random_state,
               constant := constant, fitted := some (summaryOf y) } } := by
  unfold DummyClassifier.fit DummyClassifier.init SklearnDummyClassifier.make
    SklearnDummyClassifier.fit at hfit
  split at hfit
  · simp [Except.map] at hfit
  · split at hfit
    · simp [Except.map] at hfit
    · split at hfit
      · simp [Except.map] at hfit
      · simp only [Except.map, Except.ok.injEq] at hfit
        exact hfit.symm

/-- Summing pointwise quotients over a list pulls the divisor out. -/
theorem sum_map_div {α : Type} (l : List α) (f : α → ℚ) (d : ℚ) :
    (l.map (fun a => f a / d)).sum = (l.map f).sum / d := by
  induction l with
  | nil => simp
  | cons a t ih => simp [ih, add_div]

/-- The empirical prior over the observed label space sums to 1 for a
non-empty training label vector. -/
theorem priorOf_sum (y : List Label) (hy : y ≠ []) : (priorOf y).sum = 1 := by
  have hn : (y.length : ℚ) ≠ 0 :=
    Nat.cast_ne_zero.mpr (by simpa [List.length_eq_zero] using hy)
  have hcast : ((y.dedup).map (fun c => ((y.count c : ℚ)))).sum
      = (((y.dedup).map (fun c => y.count c)).sum : ℚ) := by
    induction y.dedup with
    | nil => simp
    | cons a t ih => simp [ih]
  rw [priorOf, classesOf, sum_map_div, hcast,
    List.sum_map_count_dedup_eq_length, div_self hn]

/-- The majority label attains the maximal count among training labels. -/
theorem count_le_count_majorityOf (y : List Label) (hy : y ≠ []) :
    ∀ l ∈ y, y.count l ≤ y.count (majorityOf y) := by
  intro l hl
  have hld : l ∈ classesOf y := List.mem_dedup.mpr hl
  have hne : classesOf y ≠ [] := by
    simpa [classesOf, List.dedup_eq_nil] using hy
  obtain ⟨m, hm⟩ : ∃ m, List.argmax (fun c => y.count c) (classesOf y)
      = some m := by
    cases h : List.argmax (fun c => y.count c) (classesOf y) with
    | none => exact absurd (List.argmax_eq_none.mp h) hne
    | some m => exact ⟨m, rfl⟩
  have hmaj : majorityOf y = m := by rw [majorityOf, hm]; rfl
  rw [hmaj]
  exact List.le_of_mem_argmax hld (Option.mem_def.mpr hm)

/-! ### Claim theorems -/

/-- C1: Feature-invariance (noninterference): for every predictor state and
every two collections of identical shape that differ only in feature values,
`predict` and `predict_proba` give identical results (deterministic and
stochastic strategies alike, the generator state being part of the state),
and fitting on label-identical, shape-identical training sets yields
identical fitted states. -/
theorem feature_invariance (M : DummyClassifier) (X1 X2 : XColl)
    (y : List Label) (h : X1.shape = X2.shape) :
    M.predict X1 = M.predict X2 ∧
    M.predict_proba X1 = M.predict_proba X2 ∧
    M.fit X1 y = M.fit X2 y := by
  refine ⟨?_, ?_, ?_⟩ <;>
    simp only [DummyClassifier.predict, DummyClassifier.predict_proba,
      DummyClassifier.fit, h]

/-- Witness for C1 at concrete collections with equal shape and different
feature content. -/
theorem feature_invariance_witness :
    (XColl.mk [2, 1] [1, 2]).shape = (XColl.mk [2, 1] [5, 7]).shape ∧
    ((DummyClassifier.init "prior" none none).predict (XColl.mk [2, 1] [1, 2])
      = (DummyClassifier.init "prior" none none).predict
          (XColl.mk [2, 1] [5, 7]) ∧
     (DummyClassifier.init "prior" none none).predict_proba
        (XColl.mk [2, 1] [1, 2])
      = (DummyClassifier.init "prior" none none).predict_proba
          (XColl.mk [2, 1] [5, 7]) ∧
     (DummyClassifier.init "prior" none none).fit (XColl.mk [2, 1] [1, 2])
        [0, 1]
      = (DummyClassifier.init "prior" none none).fit (XColl.mk [2, 1] [5, 7])
          [0, 1]) :=
  ⟨rfl, feature_invariance (DummyClassifier.init "prior" none none)
    (XColl.mk [2, 1] [1, 2]) (XColl.mk [2, 1] [5, 7]) [0, 1] rfl⟩

/-- C2: Pass-through contract: `fit` hands the engine the unmodified label
vector together with a zero-filled placeholder of `X`'s shape, and
`predict` / `predict_proba` hand the engine a zero-filled placeholder of the
query's shape and return the engine's output unmodified. -/
theorem pass_through_contract (M : DummyClassifier) (X : XColl)
    (y : List Label) :
    M.fit X y = (M.sklearn_dummy_classifier.fit (npZeros X.shape) y).map
        (fun e => { M with sklearn_dummy_classifier := e }) ∧
    (npZeros X.shape).shape = X.shape ∧
    ((npZeros X.shape).content.all (fun a => a == 0)) = true ∧
    M.predict X = M.sklearn_dummy_classifier.predict (npZeros X.shape) ∧
    M.predict_proba X
      = M.sklearn_dummy_classifier.predict_proba (npZeros X.shape) := by
  refine ⟨rfl, rfl, ?_, rfl, rfl⟩
  simp [npZeros, List.all_eq_true, List.eq_of_mem_replicate]

/-- C6: calling `predict` or `predict_proba` on a freshly constructed,
never-fitted predictor fails with `NotFitted` for every query and every
configuration. -/
theorem predict_before_fit_raises (strategy : String)
    (random_state : Option Nat) (constant : Option Label) (X : XColl) :
    (DummyClassifier.init strategy random_state constant).predict X
      = .error .NotFitted ∧
    (DummyClassifier.init strategy random_state constant).predict_proba X
      = .error .NotFitted :=
  ⟨rfl, rfl⟩

/-- C7: `fit` fails with `InvalidStrategy` whenever the configured strategy
is unrecognized, and with `MissingConstant` whenever the strategy is
"constant" and no constant was supplied; in both cases the error is the
result of the fit call itself. -/
theorem fit_validation_errors (strategy : String) (random_state : Option Nat)
    (constant : Option Label) (X : XColl) (y : List Label) :
    (VALID_STRATEGIES.contains strategy = false →
      (DummyClassifier.init strategy random_state constant).fit X y
        = .error .InvalidStrategy) ∧
    (strategy = "constant" → constant = none →
      (DummyClassifier.init strategy random_state constant).fit X y
        = .error .MissingConstant) := by
  constructor
  · intro h
    have h' : strategy ∉ VALID_STRATEGIES := by simpa using h
    simp [DummyClassifier.fit, SklearnDummyClassifier.fit,
      DummyClassifier.init, SklearnDummyClassifier.make, h', Except.map]
  · rintro rfl rfl
    simp [DummyClassifier.fit, SklearnDummyClassifier.fit,
      DummyClassifier.init, SklearnDummyClassifier.make, VALID_STRATEGIES,
      Except.map]

/-- Witness for C7: an unrecognized strategy and a missing constant at
concrete inputs. -/
theorem fit_validation_errors_witness :
    (VALID_STRATEGIES.contains "quantile" = false ∧
      (DummyClassifier.init "quantile" none none).fit (XColl.mk [1, 1] [3])
        [5] = .error .InvalidStrategy) ∧
    ((DummyClassifier.init "constant" none none).fit (XColl.mk [1, 1] [3])
        [5] = .error .MissingConstant) :=
  ⟨⟨rfl, (fit_validation_errors "quantile" none none (XColl.mk [1, 1] [3])
      [5]).1 rfl⟩,
   (fit_validation_errors "constant" none none (XColl.mk [1, 1] [3])
      [5]).2 rfl rfl⟩

/-- C8: `fit` is atomic: it either fully succeeds — the result is the same
predictor with only the fitted summary installed in the engine — or it fails
with an error and no new state is produced. -/
theorem fit_atomic (M : DummyClassifier) (X : XColl) (y : List Label) :
    (M.fit X y = .ok { M with sklearn_dummy_classifier :=
        { M.sklearn_dummy_classifier with fitted := some (summaryOf y) } }) ∨
    (∃ e, M.fit X y = .error e) := by
  unfold DummyClassifier.fit SklearnDummyClassifier.fit
  split
  · exact Or.inr ⟨_, rfl⟩
  · split
    · exact Or.inr ⟨_, rfl⟩
    · split
      · exact Or.inr ⟨_, rfl⟩
      · exact Or.inl rfl

/-- C9: determinism under seeding: for the stochastic strategies, two
predictors built with equal seeds, fitted on the same data and queried on
the same data, produce identical predictions and probability matrices. -/
theorem seeded_determinism (strategy : String) (seed1 seed2 : Nat)
    (constant : Option Label) (y : List Label) (Xtr Xq : XColl)
    (hseed : seed1 = seed2)
    (_hstrat : strategy = "stratified" ∨ strategy = "uniform") :
    ((DummyClassifier.init strategy (some seed1) constant).fit Xtr y).map
        (fun M => (M.predict Xq, M.predict_proba Xq)) =
    ((DummyClassifier.init strategy (some seed2) constant).fit Xtr y).map
        (fun M => (M.predict Xq, M.predict_proba Xq)) := by
  subst hseed; rfl

/-- Witness for C9 at a concrete seed, training set and query set. -/
theorem seeded_determinism_witness :
    ((DummyClassifier.init "stratified" (some 42) none).fit
        (XColl.mk [3, 1] [1, 2, 3]) [0, 0, 1]).map
      (fun M => (M.predict (XColl.mk [2, 1] [4, 5]),
                 M.predict_proba (XColl.mk [2, 1] [4, 5]))) =
    ((DummyClassifier.init "stratified" (some 42) none).fit
        (XColl.mk [3, 1] [1, 2, 3]) [0, 0, 1]).map
      (fun M => (M.predict (XColl.mk [2, 1] [4, 5]),
                 M.predict_proba (XColl.mk [2, 1] [4, 5]))) :=
  seeded_determinism "stratified" 42 42 none [0, 0, 1]
    (XColl.mk [3, 1] [1, 2, 3]) (XColl.mk [2, 1] [4, 5]) rfl (Or.inl rfl)

/-- C10: construction never fails: `__init__` is total, only stores the
three parameters and builds the delegate with them, leaves the predictor
unfitted, and defers validation — an unrecognized strategy is accepted at
construction and only rejected at fit time. -/
theorem init_never_fails (strategy : String) (random_state : Option Nat)
    (constant : Option Label) (X : XColl) (y : List Label) :
    DummyClassifier.init strategy random_state constant =
      { strategy := strategy, random_state := random_state,
        constant := constant,
        sklearn_dummy_classifier :=
          { strategy := strategy, random_state := random_state,
            constant := constant, fitted := none } } ∧
    (VALID_STRATEGIES.contains strategy = false →
      (DummyClassifier.init strategy random_state constant).fit X y
        = .error .InvalidStrategy) := by
  refine ⟨rfl, ?_⟩
  intro h
  have h' : strategy ∉ VALID_STRATEGIES := by simpa using h
  simp [DummyClassifier.fit, SklearnDummyClassifier.fit,
    DummyClassifier.init, SklearnDummyClassifier.make, h', Except.map]

/-- Witness for C10: an unrecognized strategy is stored at construction and
rejected only at fit time. -/
theorem init_never_fails_witness :
    (DummyClassifier.init "median" none (some 3) =
      { strategy := "median", random_state := none, constant := some 3,
        sklearn_dummy_classifier :=
          { strategy := "median", random_state := none, constant := some 3,
            fitted := none } }) ∧
    (VALID_STRATEGIES.contains "median" = false ∧
      (DummyClassifier.init "median" none (some 3)).fit (XColl.mk [1, 1] [9])
        [2] = .error .InvalidStrategy) :=
  ⟨(init_never_fails "median" none (some 3) (XColl.mk [1, 1] [9]) [2]).1,
   rfl,
   (init_never_fails "median" none (some 3) (XColl.mk [1, 1] [9]) [2]).2 rfl⟩

/-- C3: a predictor constructed with strategy "constant" and constant `c`
and successfully fitted predicts, for every query collection, `len(X)`
labels all equal to `c`, and its probability rows are all the one-hot
vector at `c` over the fitted label space. -/
theorem constant_strategy_outputs (c : Label) (random_state : Option Nat)
    (Xtr Xq : XColl) (y : List Label) (M' : DummyClassifier)
    (hfit : (DummyClassifier.init "constant" random_state (some c)).fit Xtr y
      = .ok M') :
    M'.predict Xq = .ok (List.replicate Xq.nInstances c) ∧
    M'.predict_proba Xq
      = .ok (List.replicate Xq.nInstances (oneHot (classesOf y) c)) := by
  have hM := fit_ok_state "constant" random_state (some c) Xtr y M' hfit
  subst hM
  constructor
  · simp [DummyClassifier.predict, SklearnDummyClassifier.predict,
      predictOne, summaryOf, map_range_const, npZeros, XColl.nInstances]
  · simp [DummyClassifier.predict_proba,
      SklearnDummyClassifier.predict_proba, probaOne, summaryOf,
      map_range_const, npZeros, XColl.nInstances]

/-- Witness for C3: constant strategy with `c = 1` fitted on labels
`[0, 1]`. -/
theorem constant_strategy_outputs_witness :
    ((DummyClassifier.init "constant" none (some 1)).fit
        (XColl.mk [2, 1] [7, 8]) [0, 1]
      = .ok (DummyClassifier.mk "constant" none (some 1)
          (SklearnDummyClassifier.mk "constant" none (some 1)
            (some (summaryOf [0, 1]))))) ∧
    ((DummyClassifier.mk "constant" none (some 1)
        (SklearnDummyClassifier.mk "constant" none (some 1)
          (some (summaryOf [0, 1])))).predict (XColl.mk [3, 1] [4, 5, 6])
      = .ok (List.replicate 3 1) ∧
     (DummyClassifier.mk "constant" none (some 1)
        (SklearnDummyClassifier.mk "constant" none (some 1)
          (some (summaryOf [0, 1])))).predict_proba (XColl.mk [3, 1] [4, 5, 6])
      = .ok (List.replicate 3 (oneHot (classesOf [0, 1]) 1))) :=
  ⟨rfl, constant_strategy_outputs 1 none (XColl.mk [2, 1] [7, 8])
    (XColl.mk [3, 1] [4, 5, 6]) [0, 1] _ rfl⟩

/-- C4: fitted with strategy "most_frequent" or "prior" on non-empty labels,
`predict` returns the same label for every query instance, and that label
has maximal frequency among the training labels. -/
theorem most_frequent_prior_predict (strategy : String)
    (random_state : Option Nat) (constant : Option Label) (y : List Label)
    (Xtr Xq : XColl) (M' : DummyClassifier)
    (hstrat : strategy = "most_frequent" ∨ strategy = "prior")
    (hy : y ≠ [])
    (hfit : (DummyClassifier.init strategy random_state constant).fit Xtr y
      = .ok M') :
    M'.predict Xq = .ok (List.replicate Xq.nInstances (majorityOf y)) ∧
    ∀ l ∈ y, y.count l ≤ y.count (majorityOf y) := by
  have hM := fit_ok_state strategy random_state constant Xtr y M' hfit
  subst hM
  refine ⟨?_, count_le_count_majorityOf y hy⟩
  rcases hstrat with rfl | rfl <;>
    simp [DummyClassifier.predict, SklearnDummyClassifier.predict,
      predictOne, summaryOf, map_range_const, npZeros, XColl.nInstances]

/-- Witness for C4: strategy "most_frequent" on labels `[1, 1, 0]`, whose
majority label is 1. -/
theorem most_frequent_prior_predict_witness :
    ((DummyClassifier.mk "most_frequent" none none
        (SklearnDummyClassifier.mk "most_frequent" none none
          (some (summaryOf [1, 1, 0])))).predict (XColl.mk [2, 1] [3, 4])
      = .ok (List.replicate 2 (majorityOf [1, 1, 0])) ∧
     ∀ l ∈ [1, 1, 0], List.count l [1, 1, 0]
       ≤ List.count (majorityOf [1, 1, 0]) [1, 1, 0]) ∧
    majorityOf [1, 1, 0] = 1 :=
  ⟨most_frequent_prior_predict "most_frequent" none none [1, 1, 0]
    (XColl.mk [3, 1] [5, 6, 7]) (XColl.mk [2, 1] [3, 4]) _ (Or.inl rfl)
    (by decide) rfl, by decide⟩

/-- C5: fitted with strategy "prior" on non-empty labels, `predict_proba`
returns identical rows — the empirical class frequencies — for all query
instances, each row summing to 1, and `predict` returns the majority label
for every query. -/
theorem prior_proba_rows (random_state : Option Nat) (constant : Option Label)
    (y : List Label) (Xtr Xq : XColl) (M' : DummyClassifier)
    (hy : y ≠ [])
    (hfit : (DummyClassifier.init "prior" random_state constant).fit Xtr y
      = .ok M') :
    M'.predict_proba Xq = .ok (List.replicate Xq.nInstances (priorOf y)) ∧
    (priorOf y).sum = 1 ∧
    M'.predict Xq = .ok (List.replicate Xq.nInstances (majorityOf y)) := by
  have hM := fit_ok_state "prior" random_state constant Xtr y M' hfit
  subst hM
  refine ⟨?_, priorOf_sum y hy, ?_⟩
  · simp [DummyClassifier.predict_proba,
      SklearnDummyClassifier.predict_proba, probaOne, summaryOf,
      map_range_const, npZeros, XColl.nInstances]
  · simp [DummyClassifier.predict, SklearnDummyClassifier.predict,
      predictOne, summaryOf, map_range_const, npZeros, XColl.nInstances]

/-- Witness for C5, realizing the spec's example: training labels
`[0, 0, 1]` give probability rows `[2/3, 1/3]` and prediction 0 for every
query. -/
theorem prior_proba_rows_witness :
    ((DummyClassifier.mk "prior" none none
        (SklearnDummyClassifier.mk "prior" none none
          (some (summaryOf [0, 0, 1])))).predict_proba (XColl.mk [2, 1] [4, 5])
      = .ok (List.replicate 2 (priorOf [0, 0, 1])) ∧
     (priorOf [0, 0, 1]).sum = 1 ∧
     (DummyClassifier.mk "prior" none none
        (SklearnDummyClassifier.mk "prior" none none
          (some (summaryOf [0, 0, 1])))).predict (XColl.mk [2, 1] [4, 5])
      = .ok (List.replicate 2 (majorityOf [0, 0, 1]))) ∧
    priorOf [0, 0, 1] = [2 / 3, 1 / 3] ∧
    majorityOf [0, 0, 1] = 0 :=
  ⟨prior_proba_rows none none [0, 0, 1] (XColl.mk [3, 1] [7, 8, 9])
    (XColl.mk [2, 1] [4, 5]) _ (by decide) rfl, by rfl, rfl⟩

end DummySpec
